import Mathlib

/-!
Verification of the GameSensePro sensitivity-calculation pipeline.

The development shallowly embeds the numeric core of the repository:
`modules/sensitivity/calculator.py` (base computation, the news factor
stage, the stored-feedback stage, `preview_sensitivity`,
`calibrate_sensitivity`), `modules/sensitivity/news.py`
(`fetch_game_news`), and `modules/sensitivity/feedback.py`
(`collect_feedback`, the post-prompt record construction).

Python floats are modelled as rationals; the only transcendental
operation in the source, `math.log1p(gyro_range) / 2` inside the gyro
scale, is supplied as an explicit rational parameter `lg` (its value is
irrelevant to every property below, which hold for all `lg`; the source
clamps it into the band [1/2, 3/2] before use, and the clamp is
modelled faithfully). Exceptions are modelled with `Option`:
dictionary lookups that can raise `KeyError` (the per-style adjustment
tables, the per-game settings table) return `none` outside their key
sets, and the outer `try` of `calculate_sensitivity` maps any such
failure to the `(None, None, None)` result. In-place dictionary
mutation of the scope tables is modelled by threading the table values
through each stage.
-/

namespace GameSense

/-- The seven scope labels of a ScopeTable, in the order the source
dictionaries list them. -/
inductive Scope
  | noADS
  | ironSight
  | x2
  | x3
  | x4
  | x6
  | x8
  deriving DecidableEq, Fintype

/-- The iteration order of the scope keys, matching the insertion order
of the Python dictionaries. -/
def scopeList : List Scope :=
  [Scope.noADS, Scope.ironSight, Scope.x2, Scope.x3, Scope.x4, Scope.x6, Scope.x8]

/-- A scope table: the per-scope sensitivity values. -/
abbrev ScopeTable := Scope → ℚ

/-- The camera, firing and optional gyro tables threaded through the
pipeline; the gyro component is `none` exactly when the Python value is
`None`. -/
abbrev Tables := ScopeTable × ScopeTable × Option ScopeTable

/-- Python `round(x, 1)`: rounding to one decimal place. Stated via
`Int.floor` so the definition unfolds; `round1_eq_round` below ties it
to the library rounding function. Exact ties between two decimals
cannot occur at any input used in this development, so the tie rule is
immaterial. -/
def round1 (q : ℚ) : ℚ := ((⌊10 * q + 1 / 2⌋ : ℤ) : ℚ) / 10

/-- Device information consumed by the calculator
(`info["DPI"]`, `info["RefreshRate"]`, `info["ScreenSize"]`,
`info["GyroRange"]`, the last optional). -/
structure DeviceInfo where
  DPI : ℚ
  RefreshRate : ℚ
  ScreenSize : ℚ
  GyroRange : Option ℚ

/-- Player style consumed by the calculator. -/
structure PlayerStyle where
  fingers : ℕ
  claw_grip : Bool
  aiming_finger : String
  skill : String

/-- The `finger_adjust` dictionary: keys 1, 2, 3 only; key 3 depends on
the claw-grip flag; any other finger count raises `KeyError` (`none`). -/
def finger_adjust (claw : Bool) : ℕ → Option ℚ
  | 1 => some (11 / 10)
  | 2 => some 1
  | 3 => some (if claw then 9 / 10 else 17 / 20)
  | _ => none

/-- The `aiming_adjust` dictionary: keys "thumb", "index", "other". -/
def aiming_adjust (a : String) : Option ℚ :=
  if a = "thumb" then some (11 / 10)
  else if a = "index" then some 1
  else if a = "other" then some (19 / 20)
  else none

/-- The `skill_adjust` dictionary: keys "beginner", "intermediate",
"advanced". -/
def skill_adjust (s : String) : Option ℚ :=
  if s = "beginner" then some (9 / 10)
  else if s = "intermediate" then some 1
  else if s = "advanced" then some (23 / 20)
  else none

/-- Source `DPI_SCALE = max(0.5, min(2.0, dpi / 440))`. -/
def DPI_SCALE (dpi : ℚ) : ℚ := max (1 / 2) (min 2 (dpi / 440))

/-- Source `REFRESH_SCALE = max(0.8, min(1.5, refresh_rate / 120))`. -/
def REFRESH_SCALE (r : ℚ) : ℚ := max (4 / 5) (min (3 / 2) (r / 120))

/-- Source `SCREEN_SCALE = max(0.7, min(1.3, screen_size / 6.67))`. -/
def SCREEN_SCALE (s : ℚ) : ℚ := max (7 / 10) (min (13 / 10) (s / (667 / 100)))

/-- Source `GYRO_SCALE = min(1.5, max(0.5, math.log1p(gyro_range) / 2))`; the
parameter `lg` stands for the transcendental `math.log1p(gyro_range) / 2`. -/
def GYRO_SCALE_of (lg : ℚ) : ℚ := min (3 / 2) (max (1 / 2) lg)

/-- Source `style_adjust = finger_adjust[fingers] * aiming_adjust[aiming_finger]
* skill_adjust[skill]`; `none` when any lookup raises. -/
def style_adjust (ps : PlayerStyle) : Option ℚ := do
  let fa ← finger_adjust ps.claw_grip ps.fingers
  let aa ← aiming_adjust ps.aiming_finger
  let sa ← skill_adjust ps.skill
  pure (fa * aa * sa)

/-- The clamped base sensitivity:
`adjusted_base = max(50, min(MAX_SENS * 0.9, BASE_SENS * (1 / DPI_SCALE)
* REFRESH_SCALE * SCREEN_SCALE * style_adjust))` with `BASE_SENS = 150`. -/
def adjusted_base (info : DeviceInfo) (ps : PlayerStyle) (cap : ℕ) : Option ℚ :=
  (style_adjust ps).map (fun sa =>
    max 50 (min ((cap : ℚ) * (9 / 10))
      (150 * (1 / DPI_SCALE info.DPI) * REFRESH_SCALE info.RefreshRate *
        SCREEN_SCALE info.ScreenSize * sa)))

/-- The camera coefficient ladder of `cam_sense`. -/
def camCoef : Scope → ℚ
  | Scope.noADS => 1
  | Scope.ironSight => 8 / 10
  | Scope.x2 => 7 / 10
  | Scope.x3 => 65 / 100
  | Scope.x4 => 6 / 10
  | Scope.x6 => 55 / 100
  | Scope.x8 => 5 / 10

/-- The firing coefficient ladder of `fire_sense`. -/
def fireCoef : Scope → ℚ
  | Scope.noADS => 11 / 10
  | Scope.ironSight => 85 / 100
  | Scope.x2 => 75 / 100
  | Scope.x3 => 7 / 10
  | Scope.x4 => 65 / 100
  | Scope.x6 => 6 / 10
  | Scope.x8 => 55 / 100

/-- The gyro coefficient ladder of `gyro_sense`. -/
def gyroCoef : Scope → ℚ
  | Scope.noADS => 9 / 10
  | Scope.ironSight => 75 / 100
  | Scope.x2 => 65 / 100
  | Scope.x3 => 6 / 10
  | Scope.x4 => 55 / 100
  | Scope.x6 => 5 / 10
  | Scope.x8 => 45 / 100

/-- The freshly built `cam_sense`, `fire_sense` and (when a gyro range
is present) `gyro_sense` tables, before any adjustment stage; `none`
when the base computation raises. -/
def baseTables (info : DeviceInfo) (ps : PlayerStyle) (cap : ℕ) (lg : ℚ) :
    Option Tables :=
  (adjusted_base info ps cap).map (fun b =>
    ((fun s => round1 (b * camCoef s)),
     (fun s => round1 (b * fireCoef s)),
     info.GyroRange.map (fun _ => fun s => round1 (b * gyroCoef s * GYRO_SCALE_of lg))))

/-- The `AdjustmentFactor` triple `{cam_adjust, fire_adjust, gyro_adjust}`
returned by `fetch_game_news` and applied to the tables. -/
structure AdjustmentFactor where
  cam_adjust : ℚ
  fire_adjust : ℚ
  gyro_adjust : ℚ
  deriving DecidableEq

/-- One entry of a factor-application step:
`round(min(value * factor, MAX_SENS), 1)`. -/
def applyEntry (cap : ℕ) (v f : ℚ) : ℚ := round1 (min (v * f) (cap : ℚ))

/-- The factor-application loop of `calculate_sensitivity` (used by the
news stage): each present table entry is multiplied by the matching
component, clamped to the cap, rounded to one decimal; the gyro table
is updated only when present (`if gyro_sense:`). -/
def applyFactor (cap : ℕ) (t : Tables) (f : AdjustmentFactor) : Tables :=
  ((fun s => applyEntry cap (t.1 s) f.cam_adjust),
   (fun s => applyEntry cap (t.2.1 s) f.fire_adjust),
   t.2.2.map (fun g => fun s => applyEntry cap (g s) f.gyro_adjust))

/-- A community post shown during the news fetch. -/
structure NewsItem where
  text : String
  sentiment : String
  timestamp : String

/-- The per-item sentiment score:
`{"positive": 0.05, "neutral": 0.0, "negative": -0.05}.get(sentiment, 0.0)`. -/
def sentimentScore (s : String) : ℚ :=
  if s = "positive" then 1 / 20
  else if s = "neutral" then 0
  else if s = "negative" then -(1 / 20)
  else 0

/-- The display loop of `fetch_game_news`, accumulating `sentiment_sum`
and `count` over the items actually presented before the 15-second
cutoff (the cutoff itself is external nondeterminism: the function is
parameterised by the presented prefix). -/
def newsLoop : List NewsItem → ℚ → ℕ → ℚ × ℕ
  | [], s, c => (s, c)
  | i :: rest, s, c => newsLoop rest (s + sentimentScore i.sentiment) (c + 1)

/-- Source `fetch_game_news` on the sequence of items actually presented:
`adjust = 1.0 + (sentiment_sum / count) if count > 0 else 1.0`, all
three components set to `adjust`. The early return for an empty item
list also yields `{1.0, 1.0, 1.0}`, which coincides with the
`count = 0` branch, so one definition covers both paths. -/
def fetch_game_news (presented : List NewsItem) : AdjustmentFactor :=
  let sc := newsLoop presented 0 0
  let adjust : ℚ := if 0 < sc.2 then 1 + sc.1 / (sc.2 : ℚ) else 1
  ⟨adjust, adjust, adjust⟩

/-- A JSON value found in a feedback-record field: either a number or
something a float cannot be multiplied by (a `TypeError` on use). -/
inductive JVal
  | num (q : ℚ)
  | nonnum
  deriving DecidableEq

/-- A parsed feedback dictionary; `none` fields model missing keys
(`dict.get` then supplies the default `1.0`). -/
structure FeedbackData where
  cam_adjust : Option JVal
  fire_adjust : Option JVal
  gyro_adjust : Option JVal

/-- Source `feedback.get(key, 1.0)`. -/
def jget (o : Option JVal) : JVal := o.getD (JVal.num 1)

/-- Multiplication of a table value by a JSON field: `none` models the
`TypeError` raised when the field is not a number. -/
def jmul (v : ℚ) : JVal → Option ℚ
  | JVal.num q => some (v * q)
  | JVal.nonnum => none

/-- The three ways the feedback-file step can start: the file is absent
(`os.path.exists` false, stage skipped), the file exists but
`open`/`json.load` raises (caught, logged), or a dictionary was parsed. -/
inductive FeedbackRead
  | absent
  | unreadable
  | data (d : FeedbackData)

/-- The feedback-application loop over the scope keys, with in-place
mutation modelled by `Function.update`; a raised `TypeError` aborts the
loop at the point reached, keeping all updates already made (the
surrounding `except` only logs). The boolean reports whether the error
branch ran. -/
def feedbackLoop (cap : ℕ) (d : FeedbackData) : List Scope → Tables → Tables × Bool
  | [], t => (t, false)
  | s :: rest, t =>
    match jmul (t.1 s) (jget d.cam_adjust) with
    | none => (t, true)
    | some vc =>
      let cam1 := Function.update t.1 s (round1 (min vc (cap : ℚ)))
      match jmul (t.2.1 s) (jget d.fire_adjust) with
      | none => ((cam1, t.2.1, t.2.2), true)
      | some vf =>
        let fire1 := Function.update t.2.1 s (round1 (min vf (cap : ℚ)))
        match t.2.2 with
        | none => feedbackLoop cap d rest (cam1, fire1, none)
        | some g =>
          match jmul (g s) (jget d.gyro_adjust) with
          | none => ((cam1, fire1, some g), true)
          | some vg =>
            feedbackLoop cap d rest
              (cam1, fire1, some (Function.update g s (round1 (min vg (cap : ℚ)))))

/-- The whole stored-feedback stage of `calculate_sensitivity`
(lines 125-136): skipped when the file is absent; a read failure is
caught and logged leaving the tables untouched; otherwise the
application loop runs. The boolean reports whether an error was
logged. -/
def applyFeedbackStage (cap : ℕ) (t : Tables) : FeedbackRead → Tables × Bool
  | FeedbackRead.absent => (t, false)
  | FeedbackRead.unreadable => (t, true)
  | FeedbackRead.data d => feedbackLoop cap d scopeList t

/-- Source `preview_sensitivity`: the user supplies one integer percentage per
scope (any integer; default 100); each percentage becomes the
multiplier `pct / 100.0` for that scope, applied to camera, firing and
(when present) gyro, clamped to the cap and rounded. -/
def preview_sensitivity (cap : ℕ) (t : Tables) (pct : Scope → ℤ) : Tables :=
  ((fun s => round1 (min (t.1 s * ((pct s : ℚ) / 100)) (cap : ℚ))),
   (fun s => round1 (min (t.2.1 s * ((pct s : ℚ) / 100)) (cap : ℚ))),
   t.2.2.map (fun g => fun s => round1 (min (g s * ((pct s : ℚ) / 100)) (cap : ℚ))))

/-- The calibration multiplier: choice 1 (too high) gives 0.9, choice 2
(too low) gives 1.1, anything else leaves 1.0. -/
def calibAdjust (choice : ℕ) : ℚ :=
  if choice = 1 then 9 / 10 else if choice = 2 then 11 / 10 else 1

/-- Source `calibrate_sensitivity`: a single uniform multiplier from the 1-3
prompt, applied to every entry of every present table, clamped and
rounded. -/
def calibrate_sensitivity (cap : ℕ) (t : Tables) (choice : ℕ) : Tables :=
  ((fun s => round1 (min (t.1 s * calibAdjust choice) (cap : ℚ))),
   (fun s => round1 (min (t.2.1 s * calibAdjust choice) (cap : ℚ))),
   t.2.2.map (fun g => fun s => round1 (min (g s * calibAdjust choice) (cap : ℚ))))

/-- Source `GAME_SETTINGS[game]["cap"]` from `modules/utils/constants.py`;
`none` models the `KeyError` for an unknown game name. -/
def GAME_SETTINGS_cap (game : String) : Option ℕ :=
  if game = "Blood Strike" then some 300
  else if game = "Free Fire" then some 100
  else if game = "Call of Duty Mobile" then some 300
  else if game = "Delta Force" then some 200
  else if game = "PUBG Mobile" then some 300
  else none

/-- The tables right after the news-factor stage (`none` when the base
computation raised). -/
def afterNews (cap : ℕ) (info : DeviceInfo) (ps : PlayerStyle) (lg : ℚ)
    (presented : List NewsItem) : Option Tables :=
  (baseTables info ps cap lg).map (fun t0 => applyFactor cap t0 (fetch_game_news presented))

/-- The tables right after the stored-feedback stage. -/
def afterFeedback (cap : ℕ) (info : DeviceInfo) (ps : PlayerStyle) (lg : ℚ)
    (presented : List NewsItem) (fb : FeedbackRead) : Option Tables :=
  (afterNews cap info ps lg presented).map (fun t1 => (applyFeedbackStage cap t1 fb).1)

/-- The tables right after the interactive preview stage. -/
def afterPreview (cap : ℕ) (info : DeviceInfo) (ps : PlayerStyle) (lg : ℚ)
    (presented : List NewsItem) (fb : FeedbackRead) (pct : Scope → ℤ) : Option Tables :=
  (afterFeedback cap info ps lg presented fb).map (fun t2 => preview_sensitivity cap t2 pct)

/-- The tables right after the interactive calibration stage. -/
def afterCalibrate (cap : ℕ) (info : DeviceInfo) (ps : PlayerStyle) (lg : ℚ)
    (presented : List NewsItem) (fb : FeedbackRead) (pct : Scope → ℤ) (choice : ℕ) :
    Option Tables :=
  (afterPreview cap info ps lg presented fb pct).map
    (fun t3 => calibrate_sensitivity cap t3 choice)

/-- The body of `calculate_sensitivity` once the per-game cap is known:
the stages run in order, and a failure of the base computation makes
the whole `try` block return `(None, None, None)`. -/
def calcFromCap (cap : ℕ) (info : DeviceInfo) (ps : PlayerStyle) (lg : ℚ)
    (presented : List NewsItem) (fb : FeedbackRead) (pct : Scope → ℤ) (choice : ℕ) :
    Option ScopeTable × Option ScopeTable × Option ScopeTable :=
  match afterCalibrate cap info ps lg presented fb pct choice with
  | none => (none, none, none)
  | some t4 => (some t4.1, some t4.2.1, t4.2.2)

/-- Source `calculate_sensitivity`: the per-game cap lookup happens inside the
same `try`, so an unknown game also yields `(None, None, None)`. -/
def calculate_sensitivity (game : String) (info : DeviceInfo) (ps : PlayerStyle)
    (lg : ℚ) (presented : List NewsItem) (fb : FeedbackRead) (pct : Scope → ℤ)
    (choice : ℕ) : Option ScopeTable × Option ScopeTable × Option ScopeTable :=
  match GAME_SETTINGS_cap game with
  | none => (none, none, none)
  | some cap => calcFromCap cap info ps lg presented fb pct choice

/-- The record written by `collect_feedback` to the feedback file. -/
structure FeedbackRecord where
  cam_adjust : ℚ
  fire_adjust : ℚ
  gyro_adjust : ℚ
  deriving DecidableEq

/-- The record-construction part of `collect_feedback`
(`modules/sensitivity/feedback.py` lines 91-107): starts from the
neutral record, camera and firing answers 1 and 2 select 0.9 and 1.1,
and the gyro answer only matters when it is in `[1, 2, 3]` (4 means
skip). -/
def process_feedback (cam fire gyro : ℕ) : FeedbackRecord :=
  { cam_adjust := if cam = 1 then 9 / 10 else if cam = 2 then 11 / 10 else 1
    fire_adjust := if fire = 1 then 9 / 10 else if fire = 2 then 11 / 10 else 1
    gyro_adjust :=
      if gyro = 1 ∨ gyro = 2 ∨ gyro = 3 then
        if gyro = 1 then 9 / 10 else if gyro = 2 then 11 / 10 else 1
      else 1 }

/-! Spec-side definitions, written from the specification text rather
than the source, for the refinement claims: they are compared with the
source-side definitions above. -/

/-- Spec-side clamp: `clamp(x, lo, hi)`. -/
def clamp (x lo hi : ℚ) : ℚ := max lo (min hi x)

/-- Spec-side finger factor: 1 finger gives 1.1, 2 give 1.0, 3 or more
give 0.9 with claw grip and 0.85 without. -/
def finger_factor (n : ℕ) (claw : Bool) : ℚ :=
  if n = 1 then 11 / 10 else if n = 2 then 1 else if claw then 9 / 10 else 17 / 20

/-- Spec-side aiming factor: thumb 1.1, index 1.0, other 0.95. -/
def aiming_factor (a : String) : ℚ :=
  if a = "thumb" then 11 / 10 else if a = "index" then 1 else 19 / 20

/-- Spec-side skill factor: beginner 0.9, intermediate 1.0,
advanced 1.15. -/
def skill_factor (s : String) : ℚ :=
  if s = "beginner" then 9 / 10 else if s = "intermediate" then 1 else 23 / 20

/-- Spec-side base formula: `150 * (1 / dpi_scale) * refresh_scale *
screen_scale * style_scale`, clamped to `[50, cap * 0.9]`, with each
scale clamped to its fixed band. -/
def base_spec (info : DeviceInfo) (ps : PlayerStyle) (cap : ℕ) : ℚ :=
  clamp
    (150 * (1 / clamp (info.DPI / 440) (1 / 2) 2) *
      clamp (info.RefreshRate / 120) (4 / 5) (3 / 2) *
      clamp (info.ScreenSize / (667 / 100)) (7 / 10) (13 / 10) *
      (finger_factor ps.fingers ps.claw_grip * aiming_factor ps.aiming_finger *
        skill_factor ps.skill))
    50 ((cap : ℚ) * (9 / 10))

/-- Spec-side sentiment score: positive is +0.05, negative is -0.05,
anything else (neutral included) is 0. -/
def specScore (s : String) : ℚ :=
  if s = "positive" then 1 / 20 else if s = "negative" then -(1 / 20) else 0

/-- Spec-side sentiment scalar: 1 plus the mean of the per-item scores
over the items actually presented, and exactly 1 when no item was
presented. -/
def sentimentFactorSpec (presented : List NewsItem) : ℚ :=
  if presented.isEmpty then 1
  else 1 + (presented.map (fun i => specScore i.sentiment)).sum / (presented.length : ℚ)

/-- Every entry of a table lies in `[0, cap]`. -/
def inRangeTable (cap : ℕ) (tbl : ScopeTable) : Prop :=
  ∀ s, 0 ≤ tbl s ∧ tbl s ≤ (cap : ℚ)

/-- Every entry of an optional table lies in `[0, cap]` (vacuous when
the table is absent). -/
def inRangeOptTable (cap : ℕ) : Option ScopeTable → Prop
  | none => True
  | some g => inRangeTable cap g

/-- Every value of every present table lies in `[0, cap]`. -/
def inRange (cap : ℕ) (t : Tables) : Prop :=
  inRangeTable cap t.1 ∧ inRangeTable cap t.2.1 ∧ inRangeOptTable cap t.2.2

/-- The range invariant on a stage output (vacuous when the base
computation failed and no tables exist). -/
def inRangeOpt (cap : ℕ) : Option Tables → Prop
  | none => True
  | some t => inRange cap t

/-- Every entry of a table is nonnegative. -/
def nonnegTable (tbl : ScopeTable) : Prop := ∀ s, 0 ≤ tbl s

/-- Every entry of every present table is nonnegative. -/
def nonnegTables (t : Tables) : Prop :=
  nonnegTable t.1 ∧ nonnegTable t.2.1 ∧ ∀ g ∈ t.2.2, nonnegTable g

/-- A feedback-record field is nonnegative when numeric. -/
def jnonneg : Option JVal → Bool
  | some (JVal.num q) => decide (0 ≤ q)
  | _ => true

/-- The stored feedback record, if one was parsed, has nonnegative
numeric fields (true of every record `collect_feedback` writes). -/
def feedbackNonneg : FeedbackRead → Bool
  | FeedbackRead.data d => jnonneg d.cam_adjust && jnonneg d.fire_adjust && jnonneg d.gyro_adjust
  | _ => true

/-! Basic properties of one-decimal rounding. -/

theorem round1_eq_round (q : ℚ) : round1 q = (round (10 * q) : ℚ) / 10 := by
  rw [round1, round_eq]

theorem round1_mono {a b : ℚ} (h : a ≤ b) : round1 a ≤ round1 b := by
  unfold round1
  have hf : ⌊10 * a + 1 / 2⌋ ≤ ⌊10 * b + 1 / 2⌋ := Int.floor_mono (by linarith)
  have hc : ((⌊10 * a + 1 / 2⌋ : ℤ) : ℚ) ≤ ((⌊10 * b + 1 / 2⌋ : ℤ) : ℚ) :=
    Int.cast_le.mpr hf
  linarith

theorem round1_div10_int (z : ℤ) : round1 ((z : ℚ) / 10) = (z : ℚ) / 10 := by
  unfold round1
  have h1 : 10 * ((z : ℚ) / 10) + 1 / 2 = (z : ℚ) + 1 / 2 := by ring
  have h2 : ⌊(z : ℚ) + 1 / 2⌋ = z := by
    rw [Int.floor_eq_iff]
    exact ⟨by linarith, by linarith⟩
  rw [h1, h2]

theorem round1_idem (q : ℚ) : round1 (round1 q) = round1 q :=
  round1_div10_int ⌊10 * q + 1 / 2⌋

theorem round1_intCast (z : ℤ) : round1 ((z : ℚ)) = (z : ℚ) := by
  have h : ((z : ℚ)) = ((10 * z : ℤ) : ℚ) / 10 := by push_cast; ring
  rw [h, round1_div10_int]

theorem round1_natCast (n : ℕ) : round1 ((n : ℚ)) = (n : ℚ) := by
  have h : ((n : ℚ)) = (((n : ℤ)) : ℚ) := by push_cast; ring
  rw [h, round1_intCast]

theorem round1_nonneg {q : ℚ} (h : 0 ≤ q) : 0 ≤ round1 q := by
  have h0 : round1 0 ≤ round1 q := round1_mono h
  have : round1 (0 : ℚ) = 0 := by
    have := round1_intCast 0
    simpa using this
  linarith

theorem round1_le_natCast {q : ℚ} {n : ℕ} (h : q ≤ (n : ℚ)) : round1 q ≤ (n : ℚ) := by
  have h1 : round1 q ≤ round1 ((n : ℚ)) := round1_mono h
  rwa [round1_natCast] at h1

/-! Properties of one factor-application entry. -/

theorem applyEntry_nonneg (cap : ℕ) {v f : ℚ} (hv : 0 ≤ v) (hf : 0 ≤ f) :
    0 ≤ applyEntry cap v f :=
  round1_nonneg (le_min (mul_nonneg hv hf) (by positivity))

theorem applyEntry_le_cap (cap : ℕ) (v f : ℚ) : applyEntry cap v f ≤ (cap : ℚ) :=
  round1_le_natCast (min_le_right _ _)

/-! Range preservation through the adjustment stages. -/

theorem jget_cases (o : Option JVal) (h : jnonneg o = true) :
    jget o = JVal.nonnum ∨ ∃ q, jget o = JVal.num q ∧ 0 ≤ q := by
  match o with
  | none => exact Or.inr ⟨1, rfl, by norm_num⟩
  | some (JVal.num q) =>
      refine Or.inr ⟨q, rfl, ?_⟩
      simpa [jnonneg] using h
  | some JVal.nonnum => exact Or.inl rfl

theorem inRangeTable_update {cap : ℕ} {tbl : ScopeTable} (h : inRangeTable cap tbl)
    {v : ℚ} (h0 : 0 ≤ v) (h1 : v ≤ (cap : ℚ)) (s : Scope) :
    inRangeTable cap (Function.update tbl s v) := by
  intro s'
  rw [Function.update_apply]
  split
  · exact ⟨h0, h1⟩
  · exact h s'

theorem applyFactor_inRange (cap : ℕ) {t : Tables} {f : AdjustmentFactor}
    (ht : nonnegTables t) (hc : 0 ≤ f.cam_adjust) (hf : 0 ≤ f.fire_adjust)
    (hg : 0 ≤ f.gyro_adjust) : inRange cap (applyFactor cap t f) := by
  obtain ⟨h1, h2, h3⟩ := ht
  refine ⟨fun s => ⟨applyEntry_nonneg cap (h1 s) hc, applyEntry_le_cap cap _ _⟩,
    fun s => ⟨applyEntry_nonneg cap (h2 s) hf, applyEntry_le_cap cap _ _⟩, ?_⟩
  match hgy : t.2.2 with
  | none => simp [applyFactor, hgy, inRangeOptTable]
  | some g =>
      simp only [applyFactor, hgy, Option.map_some', inRangeOptTable]
      exact fun s => ⟨applyEntry_nonneg cap (h3 g hgy s) hg, applyEntry_le_cap cap _ _⟩

theorem preview_inRange (cap : ℕ) {t : Tables} {pct : Scope → ℤ}
    (ht : nonnegTables t) (hp : ∀ s, 0 ≤ pct s) :
    inRange cap (preview_sensitivity cap t pct) := by
  obtain ⟨h1, h2, h3⟩ := ht
  have hq : ∀ s, 0 ≤ ((pct s : ℚ) / 100) := by
    intro s
    have : (0 : ℚ) ≤ (pct s : ℚ) := by exact_mod_cast hp s
    positivity
  refine ⟨fun s => ⟨applyEntry_nonneg cap (h1 s) (hq s), applyEntry_le_cap cap _ _⟩,
    fun s => ⟨applyEntry_nonneg cap (h2 s) (hq s), applyEntry_le_cap cap _ _⟩, ?_⟩
  match hgy : t.2.2 with
  | none => simp [preview_sensitivity, hgy, inRangeOptTable]
  | some g =>
      simp only [preview_sensitivity, hgy, Option.map_some', inRangeOptTable]
      exact fun s => ⟨applyEntry_nonneg cap (h3 g hgy s) (hq s), applyEntry_le_cap cap _ _⟩

theorem calibAdjust_nonneg (choice : ℕ) : 0 ≤ calibAdjust choice := by
  unfold calibAdjust
  split_ifs <;> norm_num

theorem calibrate_inRange (cap : ℕ) {t : Tables} (choice : ℕ) (ht : nonnegTables t) :
    inRange cap (calibrate_sensitivity cap t choice) := by
  obtain ⟨h1, h2, h3⟩ := ht
  have hq : 0 ≤ calibAdjust choice := calibAdjust_nonneg choice
  refine ⟨fun s => ⟨applyEntry_nonneg cap (h1 s) hq, applyEntry_le_cap cap _ _⟩,
    fun s => ⟨applyEntry_nonneg cap (h2 s) hq, applyEntry_le_cap cap _ _⟩, ?_⟩
  match hgy : t.2.2 with
  | none => simp [calibrate_sensitivity, hgy, inRangeOptTable]
  | some g =>
      simp only [calibrate_sensitivity, hgy, Option.map_some', inRangeOptTable]
      exact fun s => ⟨applyEntry_nonneg cap (h3 g hgy s) hq, applyEntry_le_cap cap _ _⟩

theorem inRange_nonneg {cap : ℕ} {t : Tables} (h : inRange cap t) : nonnegTables t := by
  obtain ⟨h1, h2, h3⟩ := h
  refine ⟨fun s => (h1 s).1, fun s => (h2 s).1, ?_⟩
  intro g hg
  match hgy : t.2.2 with
  | none => rw [hgy] at hg; cases hg
  | some g0 =>
      rw [hgy] at hg h3
      cases hg
      exact fun s => (h3 s).1

theorem feedbackLoop_inRange (cap : ℕ) (d : FeedbackData)
    (hc : jnonneg d.cam_adjust = true) (hf : jnonneg d.fire_adjust = true)
    (hg : jnonneg d.gyro_adjust = true) :
    ∀ (L : List Scope) (t : Tables), inRange cap t →
      inRange cap (feedbackLoop cap d L t).1 := by
  intro L
  induction L with
  | nil => intro t ht; exact ht
  | cons s rest ih =>
      intro t ht
      obtain ⟨h1, h2, h3⟩ := ht
      rcases jget_cases d.cam_adjust hc with hnn | ⟨qc, hqc, hqc0⟩
      · simp only [feedbackLoop, hnn, jmul]
        exact ⟨h1, h2, h3⟩
      rcases jget_cases d.fire_adjust hf with hnn | ⟨qf, hqf, hqf0⟩
      · simp only [feedbackLoop, hqc, hnn, jmul]
        exact ⟨inRangeTable_update h1
            (round1_nonneg (le_min (mul_nonneg (h1 s).1 hqc0) (by positivity)))
            (round1_le_natCast (min_le_right _ _)) s, h2, h3⟩
      have hcam : inRangeTable cap
          (Function.update t.1 s (round1 (min (t.1 s * qc) (cap : ℚ)))) :=
        inRangeTable_update h1
          (round1_nonneg (le_min (mul_nonneg (h1 s).1 hqc0) (by positivity)))
          (round1_le_natCast (min_le_right _ _)) s
      have hfire : inRangeTable cap
          (Function.update t.2.1 s (round1 (min (t.2.1 s * qf) (cap : ℚ)))) :=
        inRangeTable_update h2
          (round1_nonneg (le_min (mul_nonneg (h2 s).1 hqf0) (by positivity)))
          (round1_le_natCast (min_le_right _ _)) s
      match hgy : t.2.2 with
      | none =>
          simp only [feedbackLoop, hqc, hqf, jmul, hgy]
          exact ih _ ⟨hcam, hfire, trivial⟩
      | some g =>
          have h3g : inRangeTable cap g := by
            simpa [hgy, inRangeOptTable] using h3
          rcases jget_cases d.gyro_adjust hg with hnn | ⟨qg, hqg, hqg0⟩
          · simp only [feedbackLoop, hqc, hqf, jmul, hgy, hnn]
            exact ⟨hcam, hfire, h3g⟩
          · simp only [feedbackLoop, hqc, hqf, jmul, hgy, hqg]
            refine ih _ ⟨hcam, hfire, ?_⟩
            exact inRangeTable_update h3g
              (round1_nonneg (le_min (mul_nonneg (h3g s).1 hqg0) (by positivity)))
              (round1_le_natCast (min_le_right _ _)) s

theorem applyFeedbackStage_inRange (cap : ℕ) {t : Tables} {fb : FeedbackRead}
    (ht : inRange cap t) (hfb : feedbackNonneg fb = true) :
    inRange cap (applyFeedbackStage cap t fb).1 := by
  match fb with
  | FeedbackRead.absent => exact ht
  | FeedbackRead.unreadable => exact ht
  | FeedbackRead.data d =>
      simp only [feedbackNonneg, Bool.and_eq_true] at hfb
      exact feedbackLoop_inRange cap d hfb.1.1 hfb.1.2 hfb.2 scopeList t ht

theorem baseTables_nonneg {info : DeviceInfo} {ps : PlayerStyle} {cap : ℕ} {lg : ℚ}
    {t : Tables} (h : baseTables info ps cap lg = some t) : nonnegTables t := by
  unfold baseTables at h
  match hb : adjusted_base info ps cap with
  | none => rw [hb] at h; cases h
  | some b =>
      rw [hb, Option.map_some'] at h
      have hb0 : 0 ≤ b := by
        have : b = max 50 (min ((cap : ℚ) * (9 / 10))
            (150 * (1 / DPI_SCALE info.DPI) * REFRESH_SCALE info.RefreshRate *
              SCREEN_SCALE info.ScreenSize *
              (style_adjust ps).iget)) := by
          unfold adjusted_base at hb
          match hs : style_adjust ps with
          | none => rw [hs] at hb; cases hb
          | some sa => rw [hs, Option.map_some'] at hb; cases hb; simp [hs]
        have h50 : (50 : ℚ) ≤ b := this ▸ le_max_left _ _
        linarith
      cases h
      refine ⟨fun s => round1_nonneg (mul_nonneg hb0 ?_),
        fun s => round1_nonneg (mul_nonneg hb0 ?_), ?_⟩
      · cases s <;> norm_num [camCoef]
      · cases s <;> norm_num [fireCoef]
      · intro g hgm
        match hgy : info.GyroRange with
        | none => rw [hgy] at hgm; cases hgm
        | some gr =>
            rw [hgy, Option.map_some'] at hgm
            cases hgm
            intro s
            refine round1_nonneg (mul_nonneg (mul_nonneg hb0 ?_) ?_)
            · cases s <;> norm_num [gyroCoef]
            · refine le_min (by norm_num) ?_
              exact le_trans (by norm_num) (le_max_left (1 / 2) lg)

/-! Properties of the sentiment factor. -/

theorem sentimentScore_bounds (s : String) :
    -(1 / 20) ≤ sentimentScore s ∧ sentimentScore s ≤ 1 / 20 := by
  unfold sentimentScore
  split_ifs <;> norm_num

theorem newsLoop_eq (L : List NewsItem) (s0 : ℚ) (c0 : ℕ) :
    newsLoop L s0 c0 =
      (s0 + (L.map (fun i => sentimentScore i.sentiment)).sum, c0 + L.length) := by
  induction L generalizing s0 c0 with
  | nil => simp [newsLoop]
  | cons i rest ih =>
      rw [newsLoop, ih]
      refine Prod.ext ?_ ?_
      · simp [List.sum_cons]
        ring
      · simp [List.length_cons]
        omega

theorem fetch_adjust_eq (L : List NewsItem) :
    fetch_game_news L =
      ⟨(if 0 < L.length then
          1 + (L.map (fun i => sentimentScore i.sentiment)).sum / (L.length : ℚ)
        else 1),
       (if 0 < L.length then
          1 + (L.map (fun i => sentimentScore i.sentiment)).sum / (L.length : ℚ)
        else 1),
       (if 0 < L.length then
          1 + (L.map (fun i => sentimentScore i.sentiment)).sum / (L.length : ℚ)
        else 1)⟩ := by
  unfold fetch_game_news
  rw [newsLoop_eq]
  simp

theorem news_sum_bounds (L : List NewsItem) :
    -((L.length : ℚ) * (1 / 20)) ≤ (L.map (fun i => sentimentScore i.sentiment)).sum ∧
      (L.map (fun i => sentimentScore i.sentiment)).sum ≤ (L.length : ℚ) * (1 / 20) := by
  constructor
  · have h := List.card_nsmul_le_sum (l := L.map (fun i => sentimentScore i.sentiment))
      (n := -(1 / 20 : ℚ)) (fun x hx => by
        obtain ⟨i, _, rfl⟩ := List.mem_map.mp hx
        exact (sentimentScore_bounds i.sentiment).1)
    rw [List.length_map, nsmul_eq_mul] at h
    calc -((L.length : ℚ) * (1 / 20)) = (L.length : ℚ) * (-(1 / 20)) := by ring
    _ ≤ _ := h
  · have h := List.sum_le_card_nsmul (l := L.map (fun i => sentimentScore i.sentiment))
      (n := (1 / 20 : ℚ)) (fun x hx => by
        obtain ⟨i, _, rfl⟩ := List.mem_map.mp hx
        exact (sentimentScore_bounds i.sentiment).2)
    rwa [List.length_map, nsmul_eq_mul] at h

theorem fetch_cam_bounds (L : List NewsItem) :
    19 / 20 ≤ (fetch_game_news L).cam_adjust ∧ (fetch_game_news L).cam_adjust ≤ 21 / 20 := by
  rw [fetch_adjust_eq]
  dsimp only
  split_ifs with hl
  · have hn : (0 : ℚ) < (L.length : ℚ) := by exact_mod_cast hl
    obtain ⟨hlo, hhi⟩ := news_sum_bounds L
    constructor
    · have : -(1 / 20 : ℚ) ≤ (L.map (fun i => sentimentScore i.sentiment)).sum / (L.length : ℚ) := by
        rw [le_div_iff₀ hn]
        calc -(1 / 20 : ℚ) * (L.length : ℚ) = -((L.length : ℚ) * (1 / 20)) := by ring
        _ ≤ _ := hlo
      linarith
    · have : (L.map (fun i => sentimentScore i.sentiment)).sum / (L.length : ℚ) ≤ 1 / 20 := by
        rw [div_le_iff₀ hn]
        calc (L.map (fun i => sentimentScore i.sentiment)).sum
            ≤ (L.length : ℚ) * (1 / 20) := hhi
        _ = 1 / 20 * (L.length : ℚ) := by ring
      linarith
  · norm_num

theorem fetch_cam_nonneg (L : List NewsItem) : 0 ≤ (fetch_game_news L).cam_adjust := by
  have h := (fetch_cam_bounds L).1
  linarith

theorem specScore_eq_sentimentScore (s : String) : specScore s = sentimentScore s := by
  unfold specScore sentimentScore
  split_ifs <;> simp_all

/-! The claim theorems. -/

/-- C10: the scalar sentiment adjustment returned by `fetch_game_news`
always lies in the closed interval `[0.95, 1.05]`, for every sequence
of presented items (hence for every game, mode, and number of items);
each item contributes a score in `{-0.05, 0, 0.05}`, unknown labels
counting as 0, so the mean and hence `1 + mean` is bounded. -/
theorem claim_C10_news_factor_bounded (presented : List NewsItem) :
    (19 / 20 ≤ (fetch_game_news presented).cam_adjust ∧
      (fetch_game_news presented).cam_adjust ≤ 21 / 20) ∧
    (19 / 20 ≤ (fetch_game_news presented).fire_adjust ∧
      (fetch_game_news presented).fire_adjust ≤ 21 / 20) ∧
    (19 / 20 ≤ (fetch_game_news presented).gyro_adjust ∧
      (fetch_game_news presented).gyro_adjust ≤ 21 / 20) := by
  have h := fetch_cam_bounds presented
  exact ⟨h, h, h⟩

/-- C4: for every sequence of presented sentiment items the returned
`AdjustmentFactor` has all three components equal to the single scalar
`1 + mean` of the per-item scores (positive +0.05, neutral 0, negative
-0.05) over the items actually presented, and is exactly
`{1.0, 1.0, 1.0}` when zero items were presented. -/
theorem claim_C4_sentiment_factor (presented : List NewsItem) :
    fetch_game_news presented =
      ⟨sentimentFactorSpec presented, sentimentFactorSpec presented,
        sentimentFactorSpec presented⟩ := by
  rw [fetch_adjust_eq]
  unfold sentimentFactorSpec
  have hmap : presented.map (fun i => specScore i.sentiment) =
      presented.map (fun i => sentimentScore i.sentiment) :=
    List.map_congr_left (fun i _ => specScore_eq_sentimentScore i.sentiment)
  rw [hmap]
  rcases presented with _ | ⟨i, rest⟩
  · simp
  · simp

/-- C9: every feedback record built by `collect_feedback` has each of
its three components in `{0.9, 1.0, 1.1}` (too high 0.9, too low 1.1,
otherwise 1.0), and the gyro component is exactly 1.0 when the gyro
question is skipped (choice 4) — for every possible trio of choices,
not only those the prompt admits. -/
theorem claim_C9_feedback_record (cam fire gyro : ℕ) :
    ((process_feedback cam fire gyro).cam_adjust = 9 / 10 ∨
      (process_feedback cam fire gyro).cam_adjust = 1 ∨
      (process_feedback cam fire gyro).cam_adjust = 11 / 10) ∧
    ((process_feedback cam fire gyro).fire_adjust = 9 / 10 ∨
      (process_feedback cam fire gyro).fire_adjust = 1 ∨
      (process_feedback cam fire gyro).fire_adjust = 11 / 10) ∧
    ((process_feedback cam fire gyro).gyro_adjust = 9 / 10 ∨
      (process_feedback cam fire gyro).gyro_adjust = 1 ∨
      (process_feedback cam fire gyro).gyro_adjust = 11 / 10) ∧
    (gyro = 4 → (process_feedback cam fire gyro).gyro_adjust = 1) := by
  unfold process_feedback
  refine ⟨?_, ?_, ?_, ?_⟩
  · dsimp only
    split_ifs <;> tauto
  · dsimp only
    split_ifs <;> tauto
  · dsimp only
    split_ifs <;> tauto
  · intro h
    subst h
    norm_num

/-- C9 witness: the record for camera answer 1, firing answer 2 and a
skipped gyro question has its gyro component equal to 1. -/
theorem claim_C9_witness :
    ((process_feedback 1 2 4).gyro_adjust = 1) ∧
    ((process_feedback 1 2 4).cam_adjust = 9 / 10 ∨
      (process_feedback 1 2 4).cam_adjust = 1 ∨
      (process_feedback 1 2 4).cam_adjust = 11 / 10) :=
  ⟨(claim_C9_feedback_record 1 2 4).2.2.2 rfl, (claim_C9_feedback_record 1 2 4).1⟩

/-- C5 counterexample: applying the same non-neutral factor twice
compounds instead of being idempotent — with every camera entry 100,
camera factor 1.1 and cap 300, one application gives 110 and a second
application of the same factor gives 121. -/
theorem claim_C5_counterexample :
    applyFactor 300
        (applyFactor 300 ((fun _ => 100), (fun _ => 100), none) ⟨11 / 10, 1, 1⟩)
        ⟨11 / 10, 1, 1⟩ ≠
      applyFactor 300 ((fun _ => 100), (fun _ => 100), none) ⟨11 / 10, 1, 1⟩ := by
  intro h
  have h1 := congrFun (congrArg Prod.fst h) Scope.noADS
  simp only [applyFactor, applyEntry] at h1
  rw [show round1 (min ((100 : ℚ) * (11 / 10)) ((300 : ℕ) : ℚ)) = 110 from by
    unfold round1; norm_num [min_def]] at h1
  rw [show round1 (min ((110 : ℚ) * (11 / 10)) ((300 : ℕ) : ℚ)) = 121 from by
    unfold round1; norm_num [min_def]] at h1
  norm_num at h1

theorem applyEntry_one_idem (cap : ℕ) (v : ℚ) :
    applyEntry cap (applyEntry cap v 1) 1 = applyEntry cap v 1 := by
  unfold applyEntry
  rw [mul_one, mul_one]
  have h1 : round1 (min v (cap : ℚ)) ≤ (cap : ℚ) := round1_le_natCast (min_le_right _ _)
  rw [min_eq_left h1, round1_idem]

/-- C5 (amended): the factor-application step is idempotent given the
neutral factor `{1.0, 1.0, 1.0}` — applying it twice equals applying it
once, for every set of tables and every cap — while a second
application of the same non-neutral factor compounds
(see the counterexample). -/
theorem claim_C5_neutral_idempotent (cap : ℕ) (t : Tables) :
    applyFactor cap (applyFactor cap t ⟨1, 1, 1⟩) ⟨1, 1, 1⟩ =
      applyFactor cap t ⟨1, 1, 1⟩ := by
  unfold applyFactor
  dsimp only
  refine Prod.ext ?_ (Prod.ext ?_ ?_)
  · funext s
    exact applyEntry_one_idem cap (t.1 s)
  · funext s
    exact applyEntry_one_idem cap (t.2.1 s)
  · dsimp only
    match hgy : t.2.2 with
    | none => rfl
    | some g =>
        simp only [Option.map_some']
        congr 1
        funext s
        exact applyEntry_one_idem cap (g s)

/-- C7 counterexample: a feedback record whose firing field is not a
number raises mid-application; the camera entry of the first scope has
already been multiplied (100 becomes 110), so the tables are not left
as they were before the stage even though the error branch ran. -/
theorem claim_C7_counterexample :
    ((applyFeedbackStage 300 ((fun _ => 100), (fun _ => 100), none)
        (FeedbackRead.data ⟨some (JVal.num (11 / 10)), some JVal.nonnum, none⟩)).2 = true) ∧
    ((applyFeedbackStage 300 ((fun _ => 100), (fun _ => 100), none)
        (FeedbackRead.data ⟨some (JVal.num (11 / 10)), some JVal.nonnum, none⟩)).1.1
        Scope.noADS = 110) ∧
    ((110 : ℚ) ≠ 100) := by
  have hr : round1 (min ((100 : ℚ) * (11 / 10)) (300 : ℚ)) = 110 := by
    unfold round1; norm_num [min_def]
  refine ⟨?_, ?_, by norm_num⟩
  · simp [applyFeedbackStage, scopeList, feedbackLoop, jget, jmul]
  · simp [applyFeedbackStage, scopeList, feedbackLoop, jget, jmul, hr]

/-- C7 (amended): when the persisted feedback file exists but reading
or parsing it raises, the error is only logged, the tables are left
exactly as they were before the stage, and the whole pipeline behaves
as if no feedback file existed — the failure is never propagated as a
calculation failure; an exception raised while applying an
already-parsed record, however, may leave the tables partially
adjusted (see the counterexample), and is likewise only logged. -/
theorem claim_C7_unreadable_feedback (cap : ℕ) (info : DeviceInfo) (ps : PlayerStyle)
    (lg : ℚ) (presented : List NewsItem) (pct : Scope → ℤ) (choice : ℕ) :
    (∀ t : Tables, (applyFeedbackStage cap t FeedbackRead.unreadable).1 = t) ∧
    calcFromCap cap info ps lg presented FeedbackRead.unreadable pct choice =
      calcFromCap cap info ps lg presented FeedbackRead.absent pct choice := by
  exact ⟨fun t => rfl, rfl⟩

/-- C3: for every device profile with positive dpi, refresh rate and
screen size, and every player style drawn from the domains the prompts
admit, the source base computation succeeds and equals the spec-side
formula `150 * (1 / dpi_scale) * refresh_scale * screen_scale *
style_scale` clamped to `[50, cap * 0.9]` with all scales clamped to
their bands and the style factors as listed. -/
theorem claim_C3_base_formula (info : DeviceInfo) (ps : PlayerStyle) (cap : ℕ)
    (_hd : 0 < info.DPI) (_hr : 0 < info.RefreshRate) (_hs : 0 < info.ScreenSize)
    (hf : ps.fingers = 1 ∨ ps.fingers = 2 ∨ ps.fingers = 3)
    (ha : ps.aiming_finger = "thumb" ∨ ps.aiming_finger = "index" ∨
      ps.aiming_finger = "other")
    (hk : ps.skill = "beginner" ∨ ps.skill = "intermediate" ∨ ps.skill = "advanced") :
    adjusted_base info ps cap = some (base_spec info ps cap) := by
  have hfa : finger_adjust ps.claw_grip ps.fingers =
      some (finger_factor ps.fingers ps.claw_grip) := by
    rcases hf with h | h | h <;> rw [h] <;> cases ps.claw_grip <;> rfl
  have haa : aiming_adjust ps.aiming_finger = some (aiming_factor ps.aiming_finger) := by
    rcases ha with h | h | h <;> rw [h] <;> rfl
  have hka : skill_adjust ps.skill = some (skill_factor ps.skill) := by
    rcases hk with h | h | h <;> rw [h] <;> rfl
  unfold adjusted_base style_adjust base_spec clamp DPI_SCALE REFRESH_SCALE SCREEN_SCALE
  rw [hfa, haa, hka]
  rfl

/-- C3 witness: the base formula equivalence at the reference inputs
(dpi 440, refresh 120, screen 6.67, two fingers, index finger,
intermediate skill, cap 300). -/
theorem claim_C3_witness :
    adjusted_base ⟨440, 120, 667 / 100, none⟩ ⟨2, false, "index", "intermediate"⟩ 300 =
      some (base_spec ⟨440, 120, 667 / 100, none⟩ ⟨2, false, "index", "intermediate"⟩ 300) :=
  claim_C3_base_formula ⟨440, 120, 667 / 100, none⟩ ⟨2, false, "index", "intermediate"⟩ 300
    (by norm_num) (by norm_num) (by norm_num)
    (Or.inr (Or.inl rfl)) (Or.inr (Or.inl rfl)) (Or.inr (Or.inl rfl))

theorem base_at_reference :
    adjusted_base ⟨440, 120, 667 / 100, none⟩ ⟨2, false, "index", "intermediate"⟩ 300 =
      some 150 := by
  have h1 : style_adjust ⟨2, false, "index", "intermediate"⟩ = some (1 * 1 * 1) := rfl
  unfold adjusted_base
  rw [h1, Option.map_some']
  norm_num [DPI_SCALE, REFRESH_SCALE, SCREEN_SCALE, min_def, max_def]

theorem news_empty : fetch_game_news ([] : List NewsItem) = ⟨1, 1, 1⟩ := rfl

/-- C2: at the reference scenario (dpi 440, refresh 120, screen 6.67,
no gyro, two fingers, intermediate skill, index finger, no claw,
cap 300) every scale factor is exactly 1, the base is 150 and stays 150
after the clamp to `[50, 270]`, the camera table has 150.0 at No ADS
and 75.0 at 8x Scope, the firing table has 165.0 at No ADS, the gyro
table is absent, and with a neutral sentiment factor (no items
presented) and no stored feedback these very values enter the
interactive stages. -/
theorem claim_C2_reference_scenario :
    DPI_SCALE 440 = 1 ∧ REFRESH_SCALE 120 = 1 ∧ SCREEN_SCALE (667 / 100) = 1 ∧
    adjusted_base ⟨440, 120, 667 / 100, none⟩ ⟨2, false, "index", "intermediate"⟩ 300 =
      some 150 ∧
    (afterFeedback 300 ⟨440, 120, 667 / 100, none⟩ ⟨2, false, "index", "intermediate"⟩ 0 []
        FeedbackRead.absent).map
      (fun t => (t.1 Scope.noADS, t.1 Scope.x8, t.2.1 Scope.noADS, t.2.2)) =
      some (150, 75, 165, (none : Option ScopeTable)) := by
  refine ⟨by norm_num [DPI_SCALE, min_def, max_def],
    by norm_num [REFRESH_SCALE, min_def, max_def],
    by norm_num [SCREEN_SCALE, min_def, max_def],
    base_at_reference, ?_⟩
  unfold afterFeedback afterNews baseTables
  rw [base_at_reference, news_empty]
  simp only [Option.map_some', applyFeedbackStage, applyFactor, applyEntry]
  norm_num [camCoef, fireCoef, round1, min_def]

theorem feedbackLoop_gyro_none (cap : ℕ) (d : FeedbackData) :
    ∀ (L : List Scope) (t : Tables), t.2.2 = none →
      ((feedbackLoop cap d L t).1).2.2 = none := by
  intro L
  induction L with
  | nil => intro t ht; exact ht
  | cons s rest ih =>
      intro t ht
      obtain ⟨cam, fire, gy⟩ := t
      dsimp at ht
      subst ht
      rcases hc : jmul (cam s) (jget d.cam_adjust) with _ | vc
      · simp [feedbackLoop, hc]
      rcases hf : jmul (fire s) (jget d.fire_adjust) with _ | vf
      · simp [feedbackLoop, hc, hf]
      · simp only [feedbackLoop, hc, hf]
        exact ih _ rfl

theorem applyFeedbackStage_gyro_none (cap : ℕ) (t : Tables) (fb : FeedbackRead)
    (ht : t.2.2 = none) : ((applyFeedbackStage cap t fb).1).2.2 = none := by
  match fb with
  | FeedbackRead.absent => exact ht
  | FeedbackRead.unreadable => exact ht
  | FeedbackRead.data d => exact feedbackLoop_gyro_none cap d scopeList t ht

/-- C8: when `gyro_range` is absent the gyro table is absent (`none`)
after the base computation and after every one of the four adjustment
stages, it is absent in the final result, and camera and firing are
still produced and adjusted (the final result carries exactly the
calibrated camera and firing tables). -/
theorem claim_C8_gyro_absent (cap : ℕ) (info : DeviceInfo) (ps : PlayerStyle) (lg : ℚ)
    (presented : List NewsItem) (fb : FeedbackRead) (pct : Scope → ℤ) (choice : ℕ)
    (hg : info.GyroRange = none) :
    (∀ t0, baseTables info ps cap lg = some t0 → t0.2.2 = none) ∧
    (∀ t1, afterNews cap info ps lg presented = some t1 → t1.2.2 = none) ∧
    (∀ t2, afterFeedback cap info ps lg presented fb = some t2 → t2.2.2 = none) ∧
    (∀ t3, afterPreview cap info ps lg presented fb pct = some t3 → t3.2.2 = none) ∧
    (∀ t4, afterCalibrate cap info ps lg presented fb pct choice = some t4 →
      t4.2.2 = none) ∧
    ((calcFromCap cap info ps lg presented fb pct choice).2.2 = none) ∧
    (∀ t4, afterCalibrate cap info ps lg presented fb pct choice = some t4 →
      calcFromCap cap info ps lg presented fb pct choice =
        (some t4.1, some t4.2.1, none)) := by
  have hbase : ∀ t0, baseTables info ps cap lg = some t0 → t0.2.2 = none := by
    intro t0 h0
    unfold baseTables at h0
    match hb : adjusted_base info ps cap with
    | none => rw [hb] at h0; cases h0
    | some b =>
        rw [hb, Option.map_some'] at h0
        cases h0
        simp [hg]
  have h1 : ∀ t1, afterNews cap info ps lg presented = some t1 → t1.2.2 = none := by
    intro t1 ha
    unfold afterNews at ha
    match hb : baseTables info ps cap lg with
    | none => rw [hb] at ha; cases ha
    | some t0 =>
        rw [hb, Option.map_some'] at ha
        cases ha
        simp only [applyFactor]
        rw [hbase t0 hb]
        rfl
  have h2 : ∀ t2, afterFeedback cap info ps lg presented fb = some t2 → t2.2.2 = none := by
    intro t2 ha
    unfold afterFeedback at ha
    match hn : afterNews cap info ps lg presented with
    | none => rw [hn] at ha; cases ha
    | some t1 =>
        rw [hn, Option.map_some'] at ha
        cases ha
        exact applyFeedbackStage_gyro_none cap t1 fb (h1 t1 hn)
  have h3 : ∀ t3, afterPreview cap info ps lg presented fb pct = some t3 →
      t3.2.2 = none := by
    intro t3 ha
    unfold afterPreview at ha
    match hn : afterFeedback cap info ps lg presented fb with
    | none => rw [hn] at ha; cases ha
    | some t2 =>
        rw [hn, Option.map_some'] at ha
        cases ha
        simp only [preview_sensitivity]
        rw [h2 t2 hn]
        rfl
  have h4 : ∀ t4, afterCalibrate cap info ps lg presented fb pct choice = some t4 →
      t4.2.2 = none := by
    intro t4 ha
    unfold afterCalibrate at ha
    match hn : afterPreview cap info ps lg presented fb pct with
    | none => rw [hn] at ha; cases ha
    | some t3 =>
        rw [hn, Option.map_some'] at ha
        cases ha
        simp only [calibrate_sensitivity]
        rw [h3 t3 hn]
        rfl
  have h5 : (calcFromCap cap info ps lg presented fb pct choice).2.2 = none := by
    unfold calcFromCap
    match hn : afterCalibrate cap info ps lg presented fb pct choice with
    | none => rfl
    | some t4 => simpa using h4 t4 hn
  have h6 : ∀ t4, afterCalibrate cap info ps lg presented fb pct choice = some t4 →
      calcFromCap cap info ps lg presented fb pct choice =
        (some t4.1, some t4.2.1, none) := by
    intro t4 hn
    unfold calcFromCap
    rw [hn, ← h4 t4 hn]
  exact ⟨hbase, h1, h2, h3, h4, h5, h6⟩

/-- C8 witness: at the reference device (no gyro range) the final
result of a full run has an absent gyro table. -/
theorem claim_C8_witness :
    (calcFromCap 300 ⟨440, 120, 667 / 100, none⟩ ⟨2, false, "index", "intermediate"⟩ 0 []
        FeedbackRead.absent (fun _ => 100) 3).2.2 = none :=
  (claim_C8_gyro_absent 300 ⟨440, 120, 667 / 100, none⟩ ⟨2, false, "index", "intermediate"⟩
    0 [] FeedbackRead.absent (fun _ => 100) 3 rfl).2.2.2.2.2.1

/-- C6: whenever the base computation raises (a style-dictionary lookup
fails, or already the per-game cap lookup fails), the whole calculation
is aborted and `calculate_sensitivity` returns `(None, None, None)` —
both camera and firing absent, never a partial result. -/
theorem claim_C6_total_failure (game : String) (info : DeviceInfo) (ps : PlayerStyle)
    (lg : ℚ) (presented : List NewsItem) (fb : FeedbackRead) (pct : Scope → ℤ)
    (choice : ℕ)
    (h : GAME_SETTINGS_cap game = none ∨ style_adjust ps = none) :
    calculate_sensitivity game info ps lg presented fb pct choice = (none, none, none) := by
  rcases h with h | h
  · unfold calculate_sensitivity
    rw [h]
  · unfold calculate_sensitivity
    match hgm : GAME_SETTINGS_cap game with
    | none => rfl
    | some cap =>
        unfold calcFromCap afterCalibrate afterPreview afterFeedback afterNews baseTables
          adjusted_base
        rw [h]
        rfl

/-- C6 witness: an unknown game name makes the whole calculation return
the triple of absent results. -/
theorem claim_C6_witness :
    calculate_sensitivity ("Chess") ⟨440, 120, 667 / 100, none⟩
      ⟨2, false, "index", "intermediate"⟩ 0 [] FeedbackRead.absent (fun _ => 100) 3 =
      (none, none, none) :=
  claim_C6_total_failure ("Chess") ⟨440, 120, 667 / 100, none⟩
    ⟨2, false, "index", "intermediate"⟩ 0 [] FeedbackRead.absent (fun _ => 100) 3
    (Or.inl rfl)

/-- C1 counterexample: the claimed invariant fails for a negative
preview percentage, which the integer prompt admits: at the reference
scenario, entering -100 at the preview stage drives the camera No ADS
value to -150, below 0, and it stays negative through calibration into
the final result. -/
theorem claim_C1_counterexample :
    ((calculate_sensitivity ("Blood Strike") ⟨440, 120, 667 / 100, none⟩
        ⟨2, false, "index", "intermediate"⟩ 0 [] FeedbackRead.absent (fun _ => -100)
        3).1).map (fun c => c Scope.noADS) = some (-150) ∧ ((-150 : ℚ) < 0) := by
  refine ⟨?_, by norm_num⟩
  have hcalc : calculate_sensitivity ("Blood Strike") ⟨440, 120, 667 / 100, none⟩
      ⟨2, false, "index", "intermediate"⟩ 0 [] FeedbackRead.absent (fun _ => -100) 3 =
      calcFromCap 300 ⟨440, 120, 667 / 100, none⟩ ⟨2, false, "index", "intermediate"⟩ 0 []
        FeedbackRead.absent (fun _ => -100) 3 := rfl
  rw [hcalc]
  unfold calcFromCap afterCalibrate afterPreview afterFeedback afterNews baseTables
  rw [base_at_reference, news_empty]
  simp only [Option.map_some', applyFeedbackStage, applyFactor, applyEntry,
    preview_sensitivity, calibrate_sensitivity]
  norm_num [camCoef, calibAdjust, round1, min_def]

/-- C1 (amended): in every calculation run in which the stored feedback
record has nonnegative numeric components (true of every record
`collect_feedback` writes) and every preview percentage is nonnegative,
every value in every present ScopeTable lies within
`[0, sensitivity_cap]` after each of the four adjustment stages (news
factor, stored feedback factor, preview, calibration); a negative
preview percentage, which the prompt also admits, breaks the lower
bound (see the counterexample). -/
theorem claim_C1_clamping (cap : ℕ) (info : DeviceInfo) (ps : PlayerStyle) (lg : ℚ)
    (presented : List NewsItem) (fb : FeedbackRead) (pct : Scope → ℤ) (choice : ℕ)
    (hfb : feedbackNonneg fb = true) (hpct : ∀ s, 0 ≤ pct s) :
    inRangeOpt cap (afterNews cap info ps lg presented) ∧
    inRangeOpt cap (afterFeedback cap info ps lg presented fb) ∧
    inRangeOpt cap (afterPreview cap info ps lg presented fb pct) ∧
    inRangeOpt cap (afterCalibrate cap info ps lg presented fb pct choice) := by
  match hb : baseTables info ps cap lg with
  | none =>
      unfold afterCalibrate afterPreview afterFeedback afterNews
      rw [hb]
      simp [inRangeOpt]
  | some t0 =>
      have h0 : nonnegTables t0 := baseTables_nonneg hb
      have hFc : 0 ≤ (fetch_game_news presented).cam_adjust := fetch_cam_nonneg presented
      have hFf : 0 ≤ (fetch_game_news presented).fire_adjust := fetch_cam_nonneg presented
      have hFg : 0 ≤ (fetch_game_news presented).gyro_adjust := fetch_cam_nonneg presented
      have h1 : inRange cap (applyFactor cap t0 (fetch_game_news presented)) :=
        applyFactor_inRange cap h0 hFc hFf hFg
      have h2 : inRange cap
          ((applyFeedbackStage cap (applyFactor cap t0 (fetch_game_news presented)) fb).1) :=
        applyFeedbackStage_inRange cap h1 hfb
      have h3 : inRange cap (preview_sensitivity cap
          ((applyFeedbackStage cap (applyFactor cap t0 (fetch_game_news presented)) fb).1)
          pct) :=
        preview_inRange cap (inRange_nonneg h2) hpct
      have h4 : inRange cap (calibrate_sensitivity cap (preview_sensitivity cap
          ((applyFeedbackStage cap (applyFactor cap t0 (fetch_game_news presented)) fb).1)
          pct) choice) :=
        calibrate_inRange cap choice (inRange_nonneg h3)
      unfold afterCalibrate afterPreview afterFeedback afterNews
      rw [hb]
      simp only [Option.map_some']
      exact ⟨h1, h2, h3, h4⟩

/-- C1 witness: the amended invariant at the reference scenario with
the default preview percentages (100 everywhere) and calibration answer
3: all four stage outputs are within `[0, 300]`. -/
theorem claim_C1_witness :
    inRangeOpt 300 (afterNews 300 ⟨440, 120, 667 / 100, none⟩
      ⟨2, false, "index", "intermediate"⟩ 0 []) ∧
    inRangeOpt 300 (afterFeedback 300 ⟨440, 120, 667 / 100, none⟩
      ⟨2, false, "index", "intermediate"⟩ 0 [] FeedbackRead.absent) ∧
    inRangeOpt 300 (afterPreview 300 ⟨440, 120, 667 / 100, none⟩
      ⟨2, false, "index", "intermediate"⟩ 0 [] FeedbackRead.absent (fun _ => 100)) ∧
    inRangeOpt 300 (afterCalibrate 300 ⟨440, 120, 667 / 100, none⟩
      ⟨2, false, "index", "intermediate"⟩ 0 [] FeedbackRead.absent (fun _ => 100) 3) :=
  claim_C1_clamping 300 ⟨440, 120, 667 / 100, none⟩ ⟨2, false, "index", "intermediate"⟩ 0
    [] FeedbackRead.absent (fun _ => 100) 3 rfl (fun _ => by norm_num)

end GameSense
